import Mathlib

/-! Shallow embedding of the `scaleMatrix` routine of `geokit/_core/util.py`
(the GridRescaler of the specification), together with theorems checking
the specified properties against it.

A 2-D numpy array is modelled as a `Grid`: an explicit height, width and
element-type tag plus a total data function `ℕ → ℕ → ℚ` (row, column);
only the values at indices `r < H`, `c < W` are meaningful.  Python float
arithmetic is idealised as exact rational arithmetic.  The three errors the
routine can raise are modelled as an error enumeration, and the routine
itself returns `Except ScaleError Grid`:
  `ValueError("scale must be integer types")`                  ↦ `invalidScaleType`
  `GeoKitError("Matrix can only be scaled down by a factor…")` ↦ `nonDivisibleDimension`
  `GeoKitError("Dimensions must be scaled in the same direction")`
                                                               ↦ `incompatibleScaleDirection`
-/

/-- Element-type tag of a numpy array (only the integer/float distinction is
relevant to the routine: upscaling keeps `mat.dtype`, downscaling produces
`dtype="float"`, and `np.zeros` defaults to float). -/
inductive DType where
  | int : DType
  | float : DType
deriving DecidableEq

/-- A 2-D numpy array of numeric values: height, width, element type and a
(total) data function; entries at `r < H`, `c < W` are the array contents. -/
structure Grid where
  H : ℕ
  W : ℕ
  dtype : DType
  data : ℕ → ℕ → ℚ

/-- A Python value passed as one component of the `scale` argument: either an
`int` (accepted by the `isinstance(…, int)` check) or a `float` (rejected). -/
inductive PyVal where
  | int : ℤ → PyVal
  | float : ℚ → PyVal

/-- The `isinstance(x, int)` check of the source. -/
def PyVal.isInt : PyVal → Bool
  | .int _ => true
  | .float _ => false

/-- The errors `scaleMatrix` can raise. -/
inductive ScaleError where
  | invalidScaleType : ScaleError
  | nonDivisibleDimension : ScaleError
  | incompatibleScaleDirection : ScaleError
deriving DecidableEq

/-- Numpy dtype promotion for `np.concatenate`: equal dtypes are kept,
mixing integer data with float padding promotes to float. -/
def promoteD (a b : DType) : DType := if a = b then a else DType.float

/-- The source's `np.zeros((H, W))`: an all-zero float array. -/
def zerosF (H W : ℕ) : Grid := ⟨H, W, DType.float, fun _ _ => 0⟩

/-- The source's `np.concatenate((a, b), 0)`: stack `b` below `a`. -/
def vconcat (a b : Grid) : Grid :=
  ⟨a.H + b.H, a.W, promoteD a.dtype b.dtype,
   fun r c => if r < a.H then a.data r c else b.data (r - a.H) c⟩

/-- The source's `np.concatenate((a, b), 1)`: put `b` to the right of `a`. -/
def hconcat (a b : Grid) : Grid :=
  ⟨a.H, a.W + b.W, promoteD a.dtype b.dtype,
   fun r c => if c < a.W then a.data r c else b.data r (c - a.W)⟩

/-- The iteration order of the nested `for yo in range(ys): for xo in range(xs):`
loops of the source: all pairs `(yo, xo)`. -/
def loopPairs (ys xs : ℕ) : List (ℕ × ℕ) :=
  (List.range ys).flatMap (fun yo => (List.range xs).map (fun xo => (yo, xo)))

/-- One strided slice assignment `out[yo::ys, xo::xs] = mat` of the upscale
loop: position `(r, c)` receives `mat[r / ys, c / xs]` exactly when it lies on
the `(yo, xo)` stride and inside the assigned `(matH, matW)`-shaped slice. -/
def stridedSet (matH matW ys xs yo xo : ℕ) (mat out : ℕ → ℕ → ℚ) : ℕ → ℕ → ℚ :=
  fun r c =>
    if (r % ys = yo ∧ c % xs = xo) ∧ (r / ys < matH ∧ c / xs < matW) then
      mat (r / ys) (c / xs)
    else out r c

/-- The upscale branch: `out = np.zeros((H*ys, W*xs), dtype=mat.dtype)` followed
by the strided assignments `out[yo::ys, xo::xs] = mat` for every loop pair. -/
def scaleUp (mat : Grid) (ys xs : ℕ) : Grid :=
  ⟨mat.H * ys, mat.W * xs, mat.dtype,
   (loopPairs ys xs).foldl
     (fun out p => stridedSet mat.H mat.W ys xs p.1 p.2 mat.data out)
     (fun _ _ => 0)⟩

/-- One strided slice accumulation `out += mat[yo::ys, xo::xs]` of the
downscale loop: entry `(i, j)` of the slice is `mat[yo + i*ys, xo + j*xs]`. -/
def stridedAdd (ys xs yo xo : ℕ) (mat out : ℕ → ℕ → ℚ) : ℕ → ℕ → ℚ :=
  fun i j => out i j + mat (yo + i * ys) (xo + j * xs)

/-- The accumulated sum of the downscale loop, starting from `np.zeros`. -/
def blockSum (mat : Grid) (ys xs : ℕ) : ℕ → ℕ → ℚ :=
  (loopPairs ys xs).foldl
    (fun out p => stridedAdd ys xs p.1 p.2 mat.data out)
    (fun _ _ => 0)

/-- The source's `out = out/(xScale*yScale)` applied to the accumulated sum. -/
def blockAvg (mat : Grid) (ys xs : ℕ) : ℕ → ℕ → ℚ :=
  fun i j => blockSum mat ys xs i j / ((xs * ys : ℕ) : ℚ)

/-- The three in-place edge corrections of the source, on an output of shape
`(oH, oW)`:
  `if yPad>0: out[:-1,-1] *= yScale/(yScale-yPad)`
  `if xPad>0: out[-1,:-1] *= xScale/(xScale-xPad)`
  `if yPad>0: out[-1,-1]  *= yScale*xScale/(yScale-yPad)/(xScale-xPad)`
The three index regions are pairwise disjoint, so the sequential in-place
updates compose as nested conditionals. -/
def applyCorrections (ys xs yPad xPad oH oW : ℕ) (out : ℕ → ℕ → ℚ) : ℕ → ℕ → ℚ :=
  let o1 : ℕ → ℕ → ℚ := fun i j =>
    if 0 < yPad ∧ i < oH - 1 ∧ j = oW - 1 then
      out i j * ((ys : ℚ) / ((ys : ℚ) - (yPad : ℚ)))
    else out i j
  let o2 : ℕ → ℕ → ℚ := fun i j =>
    if 0 < xPad ∧ i = oH - 1 ∧ j < oW - 1 then
      o1 i j * ((xs : ℚ) / ((xs : ℚ) - (xPad : ℚ)))
    else o1 i j
  fun i j =>
    if 0 < yPad ∧ i = oH - 1 ∧ j = oW - 1 then
      o2 i j * ((ys : ℚ) * (xs : ℚ) / ((ys : ℚ) - (yPad : ℚ)) / ((xs : ℚ) - (xPad : ℚ)))
    else o2 i j

/-- The tail of the downscale branch shared by the strict and padded paths:
`out = np.zeros((mat.H//ys, mat.W//xs), dtype="float")`, the accumulation
loops, the division, and the edge corrections. -/
def scaleDownTail (mat : Grid) (ys xs yPad xPad : ℕ) : Grid :=
  ⟨mat.H / ys, mat.W / xs, DType.float,
   applyCorrections ys xs yPad xPad (mat.H / ys) (mat.W / xs) (blockAvg mat ys xs)⟩

/-- The pad amount computed in the non-strict downscale path:
`pad = scale - len % scale`, reset to `0` when it equals `scale`. -/
def padAmount (len s : ℕ) : ℕ :=
  let p := s - len % s
  if p = s then 0 else p

/-- The conditional zero-padding of the non-strict downscale path:
`if yPad>0: mat = np.concatenate((mat, np.zeros((yPad, mat.shape[1]))), 0)`
`if xPad>0: mat = np.concatenate((mat, np.zeros((mat.shape[0], xPad))), 1)`. -/
def padDown (mat : Grid) (ys xs : ℕ) : Grid :=
  let yPad := padAmount mat.H ys
  let xPad := padAmount mat.W xs
  let m1 := if 0 < yPad then vconcat mat (zerosF yPad mat.W) else mat
  if 0 < xPad then hconcat m1 (zerosF m1.H xPad) else m1

/-- The `scaleMatrix` routine, with the `scale` argument already unpacked into
its two components (each a Python value that may fail the integer check).
Mirrors the source: integer check, no-op branch, upscale branch, downscale
branch (strict divisibility check or zero padding, accumulation, division,
edge corrections), and the mixed-direction error otherwise. -/
def scaleMatrix (mat : Grid) (yScale xScale : PyVal) (strict : Bool) :
    Except ScaleError Grid :=
  match yScale, xScale with
  | .int ys, .int xs =>
    if xs = 0 ∧ ys = 0 then .ok mat
    else if 0 < xs ∧ 0 < ys then .ok (scaleUp mat ys.toNat xs.toNat)
    else if xs < 0 ∧ ys < 0 then
      let Y := (-ys).toNat
      let X := (-xs).toNat
      if strict then
        if ¬(mat.H % Y = 0 ∧ mat.W % X = 0) then .error .nonDivisibleDimension
        else .ok (scaleDownTail mat Y X 0 0)
      else
        .ok (scaleDownTail (padDown mat Y X) Y X (padAmount mat.H Y) (padAmount mat.W X))
    else .error .incompatibleScaleDirection
  | _, _ => .error .invalidScaleType

/-- The single-integer form of the `scale` argument: the tuple unpacking in the
source fails and both components become the same value. -/
def scaleMatrixScalar (mat : Grid) (s : PyVal) (strict : Bool) :
    Except ScaleError Grid :=
  scaleMatrix mat s s strict

/-- Formalisation of the padding invariant stated by the spec and by the
function's own docstring ("each boundary output cell equals the mean of ONLY
the real (non-padded) input cells it covers"): the arithmetic mean over the
cells of output block `(i, j)` that lie inside the real `(H, W)` extent of
the input grid, the block covering rows `i*ys … i*ys+ys-1` and columns
`j*xs … j*xs+xs-1`.  This definition follows the spec's words and is compared
against what `scaleMatrix` computes. -/
def specRealMean (mat : Grid) (ys xs i j : ℕ) : ℚ :=
  (∑ yo in Finset.range ys, ∑ xo in Finset.range xs,
      if i * ys + yo < mat.H ∧ j * xs + xo < mat.W then
        mat.data (i * ys + yo) (j * xs + xo)
      else 0) /
  ((min ys (mat.H - i * ys) * min xs (mat.W - j * xs) : ℕ) : ℚ)

/-! Concrete grids used as test inputs (from the spec scenarios and as
failing inputs for the edge-correction claims) -/

/-- The 2×2 grid `[[1,2],[3,4]]` of spec scenario 1. -/
def g22 : Grid := ⟨2, 2, DType.int, fun r c =>
  if r = 0 then (if c = 0 then 1 else 2) else (if c = 0 then 3 else 4)⟩

/-- The 4×4 grid `[[1,1,1,1],[2,2,3,3],[4,4,5,5],[6,7,8,9]]` of spec
scenarios 2 and 3. -/
def g44 : Grid := ⟨4, 4, DType.int, fun r c =>
  ((([[1, 1, 1, 1], [2, 2, 3, 3], [4, 4, 5, 5], [6, 7, 8, 9]] :
      List (List ℚ)).getD r []).getD c 0)⟩

/-- A 3×4 all-ones grid: downscaling by `(-2,-3)` pads one row and two
columns. -/
def g34 : Grid := ⟨3, 4, DType.int, fun _ _ => 1⟩

/-- A 2×3 all-ones grid: downscaling by `(-2,-2)` pads one column and no
row. -/
def g23 : Grid := ⟨2, 3, DType.int, fun _ _ => 1⟩

/-- A 3×5 all-ones grid: the spec's strict-rejection example for `(-2,-2)`. -/
def g35 : Grid := ⟨3, 5, DType.int, fun _ _ => 1⟩

/-! Helper lemmas about the loops -/

lemma mem_loopPairs {ys xs a b : ℕ} :
    (a, b) ∈ loopPairs ys xs ↔ a < ys ∧ b < xs := by
  simp [loopPairs, List.mem_flatMap, List.mem_map, List.mem_range]

lemma foldSet_eq (md : ℕ → ℕ → ℚ) (H W ys xs : ℕ) (l : List (ℕ × ℕ))
    (init : ℕ → ℕ → ℚ) (r c : ℕ) :
    (l.foldl (fun out p => stridedSet H W ys xs p.1 p.2 md out) init) r c =
      if (r % ys, c % xs) ∈ l ∧ (r / ys < H ∧ c / xs < W) then
        md (r / ys) (c / xs)
      else init r c := by
  induction l generalizing init with
  | nil => simp
  | cons p t ih =>
    rw [List.foldl_cons, ih]
    by_cases hb : r / ys < H ∧ c / xs < W
    · by_cases ht : (r % ys, c % xs) ∈ t
      · simp [ht, hb]
      · by_cases hp : p = (r % ys, c % xs)
        · subst hp
          simp [ht, hb, stridedSet]
        · have hk : ¬(r % ys = p.1 ∧ c % xs = p.2) := by
            intro h
            exact hp (Prod.ext h.1.symm h.2.symm)
          have hpk : ¬((r % ys, c % xs) = p) := fun h => hp h.symm
          simp [List.mem_cons, ht, hpk, hb, stridedSet, hk]
    · simp [stridedSet, hb]

lemma foldAdd_eq (md : ℕ → ℕ → ℚ) (ys xs : ℕ) (l : List (ℕ × ℕ))
    (init : ℕ → ℕ → ℚ) (i j : ℕ) :
    (l.foldl (fun out p => stridedAdd ys xs p.1 p.2 md out) init) i j =
      init i j + (l.map (fun p => md (p.1 + i * ys) (p.2 + j * xs))).sum := by
  induction l generalizing init with
  | nil => simp
  | cons p t ih =>
    rw [List.foldl_cons, ih]
    simp [stridedAdd, add_assoc]

lemma sum_map_range (f : ℕ → ℚ) (n : ℕ) :
    ((List.range n).map f).sum = ∑ k in Finset.range n, f k := by
  induction n with
  | zero => simp
  | succ n ih =>
    rw [List.range_succ]
    simp [ih, Finset.sum_range_succ]

lemma sum_loopPairs (f : ℕ × ℕ → ℚ) (ys xs : ℕ) :
    ((loopPairs ys xs).map f).sum =
      ∑ yo in Finset.range ys, ∑ xo in Finset.range xs, f (yo, xo) := by
  induction ys with
  | zero => simp [loopPairs]
  | succ ys ih =>
    rw [loopPairs, List.range_succ, List.flatMap_append]
    rw [List.map_append, List.sum_append]
    rw [show ((List.range ys).flatMap
        (fun yo => (List.range xs).map (fun xo => (yo, xo)))) = loopPairs ys xs from rfl]
    rw [ih, Finset.sum_range_succ]
    simp [List.map_map, sum_map_range, Function.comp]

lemma scaleUp_data (mat : Grid) (ys xs r c : ℕ)
    (hr : r < mat.H * ys) (hc : c < mat.W * xs) :
    (scaleUp mat ys xs).data r c = mat.data (r / ys) (c / xs) := by
  have hys : 0 < ys := by
    rcases Nat.eq_zero_or_pos ys with h | h
    · subst h
      rw [Nat.mul_zero] at hr
      exact absurd hr (Nat.not_lt_zero r)
    · exact h
  have hxs : 0 < xs := by
    rcases Nat.eq_zero_or_pos xs with h | h
    · subst h
      rw [Nat.mul_zero] at hc
      exact absurd hc (Nat.not_lt_zero c)
    · exact h
  have hdr : r / ys < mat.H := (Nat.div_lt_iff_lt_mul hys).mpr hr
  have hdc : c / xs < mat.W := (Nat.div_lt_iff_lt_mul hxs).mpr hc
  have hmem : (r % ys, c % xs) ∈ loopPairs ys xs :=
    mem_loopPairs.mpr ⟨Nat.mod_lt _ hys, Nat.mod_lt _ hxs⟩
  show ((loopPairs ys xs).foldl
      (fun out p => stridedSet mat.H mat.W ys xs p.1 p.2 mat.data out)
      (fun _ _ => 0)) r c = mat.data (r / ys) (c / xs)
  rw [foldSet_eq]
  exact if_pos ⟨hmem, hdr, hdc⟩

lemma blockSum_eq (mat : Grid) (ys xs i j : ℕ) :
    blockSum mat ys xs i j =
      ∑ yo in Finset.range ys, ∑ xo in Finset.range xs,
        mat.data (yo + i * ys) (xo + j * xs) := by
  show ((loopPairs ys xs).foldl
      (fun out p => stridedAdd ys xs p.1 p.2 mat.data out) (fun _ _ => 0)) i j = _
  rw [foldAdd_eq]
  rw [sum_loopPairs (fun p => mat.data (p.1 + i * ys) (p.2 + j * xs)) ys xs]
  simp

lemma applyCorrections_zero (ys xs oH oW : ℕ) (out : ℕ → ℕ → ℚ) :
    applyCorrections ys xs 0 0 oH oW out = out := by
  funext i j
  simp [applyCorrections]

lemma padAmount_eq_zero {len s : ℕ} (h : len % s = 0) : padAmount len s = 0 := by
  simp [padAmount, h]

lemma padDown_eq_self {mat : Grid} {ys xs : ℕ}
    (hy : padAmount mat.H ys = 0) (hx : padAmount mat.W xs = 0) :
    padDown mat ys xs = mat := by
  simp [padDown, hy, hx]

/-! Branch-navigation lemmas for `scaleMatrix` -/

lemma scaleMatrix_up (mat : Grid) (sy sx : ℕ) (hy : 0 < sy) (hx : 0 < sx)
    (strict : Bool) :
    scaleMatrix mat (PyVal.int (sy : ℤ)) (PyVal.int (sx : ℤ)) strict =
      Except.ok (scaleUp mat sy sx) := by
  have h1 : ¬((sx : ℤ) = 0 ∧ (sy : ℤ) = 0) := by omega
  have h2 : (0 : ℤ) < (sx : ℤ) ∧ (0 : ℤ) < (sy : ℤ) := by omega
  simp only [scaleMatrix]
  rw [if_neg h1, if_pos h2]
  simp [Int.toNat_natCast]

lemma scaleMatrix_down (mat : Grid) (sy sx : ℕ) (hy : 0 < sy) (hx : 0 < sx)
    (strict : Bool) :
    scaleMatrix mat (PyVal.int (-(sy : ℤ))) (PyVal.int (-(sx : ℤ))) strict =
      if strict then
        if ¬(mat.H % sy = 0 ∧ mat.W % sx = 0) then
          Except.error ScaleError.nonDivisibleDimension
        else Except.ok (scaleDownTail mat sy sx 0 0)
      else
        Except.ok (scaleDownTail (padDown mat sy sx) sy sx
          (padAmount mat.H sy) (padAmount mat.W sx)) := by
  have h1 : ¬(-(sx : ℤ) = 0 ∧ -(sy : ℤ) = 0) := by omega
  have h2 : ¬((0 : ℤ) < -(sx : ℤ) ∧ (0 : ℤ) < -(sy : ℤ)) := by omega
  have h3 : -(sx : ℤ) < 0 ∧ -(sy : ℤ) < 0 := by omega
  simp only [scaleMatrix]
  rw [if_neg h1, if_neg h2, if_pos h3]
  simp only [neg_neg, Int.toNat_natCast]

/-! Claim theorems -/

/-- C3: for every grid of shape `(H, W)` with `H, W ≥ 1` and every positive
integer scale pair `(sy, sx)`, `scaleMatrix` returns a grid of shape
`(H*sy, W*sx)` whose element type equals the input's and whose every cell
satisfies `out[r, c] = G[r / sy, c / sx]`. -/
theorem scaleMatrix_upscale_correct (mat : Grid) (sy sx : ℕ) (strict : Bool)
    (hH : 0 < mat.H) (hW : 0 < mat.W) (hy : 0 < sy) (hx : 0 < sx) :
    ∃ g, scaleMatrix mat (PyVal.int (sy : ℤ)) (PyVal.int (sx : ℤ)) strict =
        Except.ok g ∧
      g.H = mat.H * sy ∧ g.W = mat.W * sx ∧ g.dtype = mat.dtype ∧
      ∀ r c, r < mat.H * sy → c < mat.W * sx →
        g.data r c = mat.data (r / sy) (c / sx) := by
  refine ⟨scaleUp mat sy sx, scaleMatrix_up mat sy sx hy hx strict, rfl, rfl, rfl, ?_⟩
  intro r c hr hc
  exact scaleUp_data mat sy sx r c hr hc

/-- Witness for C3 at spec scenario 1: the 2×2 grid `[[1,2],[3,4]]` upscaled
by `(2,2)`. -/
theorem scaleMatrix_upscale_correct_witness :
    ∃ g, scaleMatrix g22 (PyVal.int 2) (PyVal.int 2) true = Except.ok g ∧
      g.H = g22.H * 2 ∧ g.W = g22.W * 2 ∧ g.dtype = g22.dtype ∧
      ∀ r c, r < g22.H * 2 → c < g22.W * 2 →
        g.data r c = g22.data (r / 2) (c / 2) :=
  scaleMatrix_upscale_correct g22 2 2 true (by decide) (by decide)
    (by decide) (by decide)

/-- C7: scale `(0,0)`, and the single integer `0`, are a no-op: the input grid
itself is returned, unmodified. -/
theorem scaleMatrix_noop (mat : Grid) (strict : Bool) :
    scaleMatrix mat (PyVal.int 0) (PyVal.int 0) strict = Except.ok mat ∧
    scaleMatrixScalar mat (PyVal.int 0) strict = Except.ok mat := by
  constructor <;> rfl

/-- C6: the three rejection cases.  Mixed-direction scales raise the
mixed-direction error, a non-integer scale component raises the
invalid-scale-type error, and a strict downscale by non-divisible magnitudes
raises the non-divisible-dimension error — each for every grid, with no
output produced (the result is an `error`, uniformly in the grid). -/
theorem scaleMatrix_rejections (mat : Grid) (strict : Bool) :
    (∀ sy sx : ℤ, (sy < 0 ∧ 0 < sx) ∨ (0 < sy ∧ sx < 0) →
      scaleMatrix mat (PyVal.int sy) (PyVal.int sx) strict =
        Except.error ScaleError.incompatibleScaleDirection) ∧
    (∀ yv xv : PyVal, yv.isInt = false ∨ xv.isInt = false →
      scaleMatrix mat yv xv strict = Except.error ScaleError.invalidScaleType) ∧
    (∀ sy sx : ℕ, 0 < sy → 0 < sx → ¬(mat.H % sy = 0 ∧ mat.W % sx = 0) →
      scaleMatrix mat (PyVal.int (-(sy : ℤ))) (PyVal.int (-(sx : ℤ))) true =
        Except.error ScaleError.nonDivisibleDimension) := by
  refine ⟨?_, ?_, ?_⟩
  · intro sy sx h
    have h1 : ¬(sx = 0 ∧ sy = 0) := by omega
    have h2 : ¬((0 : ℤ) < sx ∧ (0 : ℤ) < sy) := by omega
    have h3 : ¬(sx < 0 ∧ sy < 0) := by omega
    simp only [scaleMatrix]
    rw [if_neg h1, if_neg h2, if_neg h3]
  · intro yv xv h
    cases yv with
    | float q => rfl
    | int a =>
      cases xv with
      | float q => rfl
      | int b => simp [PyVal.isInt] at h
  · intro sy sx hy hx hnd
    rw [scaleMatrix_down mat sy sx hy hx true]
    simp [hnd]

/-- Witness for C6 at the spec's examples: scale `(2,-2)`, scale `(1.5,1.5)`,
and a 3×5 grid downscaled strictly by `(-2,-2)`. -/
theorem scaleMatrix_rejections_witness :
    scaleMatrix g35 (PyVal.int 2) (PyVal.int (-2)) true =
      Except.error ScaleError.incompatibleScaleDirection ∧
    scaleMatrix g35 (PyVal.float (3 / 2)) (PyVal.float (3 / 2)) true =
      Except.error ScaleError.invalidScaleType ∧
    scaleMatrix g35 (PyVal.int (-2)) (PyVal.int (-2)) true =
      Except.error ScaleError.nonDivisibleDimension :=
  ⟨(scaleMatrix_rejections g35 true).1 2 (-2) (Or.inr (by decide)),
   (scaleMatrix_rejections g35 true).2.1 _ _ (Or.inl rfl),
   (scaleMatrix_rejections g35 true).2.2 2 2 (by decide) (by decide) (by decide)⟩

/-- C9: the integer-type validation precedes the sign-direction validation:
whenever at least one scale component is not an integer, the invalid-scale-type
error is raised, regardless of the signs. -/
theorem scaleMatrix_type_check_first (mat : Grid) (strict : Bool) (yv xv : PyVal)
    (h : yv.isInt = false ∨ xv.isInt = false) :
    scaleMatrix mat yv xv strict = Except.error ScaleError.invalidScaleType := by
  cases yv with
  | float q => rfl
  | int a =>
    cases xv with
    | float q => rfl
    | int b => simp [PyVal.isInt] at h

/-- Witness for C9 at scale `(1.5, -2)`: mixed signs plus a non-integer
component still give the invalid-scale-type error. -/
theorem scaleMatrix_type_check_first_witness :
    scaleMatrix g22 (PyVal.float (3 / 2)) (PyVal.int (-2)) true =
      Except.error ScaleError.invalidScaleType :=
  scaleMatrix_type_check_first g22 true _ _ (Or.inl rfl)

/-- C10: a scale pair with exactly one zero component is rejected with the
mixed-direction error; only `(0,0)` selects the no-op branch. -/
theorem scaleMatrix_single_zero_rejected (mat : Grid) (strict : Bool)
    (sy sx : ℤ) (h : (sy = 0 ∧ sx ≠ 0) ∨ (sy ≠ 0 ∧ sx = 0)) :
    scaleMatrix mat (PyVal.int sy) (PyVal.int sx) strict =
      Except.error ScaleError.incompatibleScaleDirection := by
  have h1 : ¬(sx = 0 ∧ sy = 0) := by omega
  have h2 : ¬((0 : ℤ) < sx ∧ (0 : ℤ) < sy) := by omega
  have h3 : ¬(sx < 0 ∧ sy < 0) := by omega
  simp only [scaleMatrix]
  rw [if_neg h1, if_neg h2, if_neg h3]

/-- Witness for C10 at scale `(0, 5)`. -/
theorem scaleMatrix_single_zero_rejected_witness :
    scaleMatrix g22 (PyVal.int 0) (PyVal.int 5) true =
      Except.error ScaleError.incompatibleScaleDirection :=
  scaleMatrix_single_zero_rejected g22 true 0 5 (Or.inl ⟨rfl, by decide⟩)

/-- C8: when both dimensions are exactly divisible, strict and non-strict
downscales return identical results (both pads vanish, so no padding and no
edge correction happen). -/
theorem scaleMatrix_strict_irrelevant_when_divisible (mat : Grid) (sy sx : ℕ)
    (hy : 0 < sy) (hx : 0 < sx) (hH : mat.H % sy = 0) (hW : mat.W % sx = 0) :
    scaleMatrix mat (PyVal.int (-(sy : ℤ))) (PyVal.int (-(sx : ℤ))) true =
    scaleMatrix mat (PyVal.int (-(sy : ℤ))) (PyVal.int (-(sx : ℤ))) false := by
  rw [scaleMatrix_down mat sy sx hy hx true, scaleMatrix_down mat sy sx hy hx false]
  have hpy := padAmount_eq_zero hH
  have hpx := padAmount_eq_zero hW
  simp [hH, hW, hpy, hpx, padDown_eq_self hpy hpx]

/-- Witness for C8 at the 4×4 grid of spec scenario 2 with scale `(-2,-2)`. -/
theorem scaleMatrix_strict_irrelevant_when_divisible_witness :
    scaleMatrix g44 (PyVal.int (-2)) (PyVal.int (-2)) true =
    scaleMatrix g44 (PyVal.int (-2)) (PyVal.int (-2)) false :=
  scaleMatrix_strict_irrelevant_when_divisible g44 2 2 (by decide) (by decide)
    (by decide) (by decide)

/-- C4: for every grid with `H % sy = 0` and `W % sx = 0` and either strict
value, downscaling by `(-sy,-sx)` returns a float grid of shape
`(H/sy, W/sx)` in which each cell is the exact arithmetic mean of its
`sy×sx` input block. -/
theorem scaleMatrix_downscale_exact (mat : Grid) (sy sx : ℕ) (strict : Bool)
    (hy : 0 < sy) (hx : 0 < sx) (hH : mat.H % sy = 0) (hW : mat.W % sx = 0) :
    ∃ g, scaleMatrix mat (PyVal.int (-(sy : ℤ))) (PyVal.int (-(sx : ℤ))) strict =
        Except.ok g ∧
      g.H = mat.H / sy ∧ g.W = mat.W / sx ∧ g.dtype = DType.float ∧
      ∀ i j, i < mat.H / sy → j < mat.W / sx →
        g.data i j = (∑ yo in Finset.range sy, ∑ xo in Finset.range sx,
          mat.data (i * sy + yo) (j * sx + xo)) / ((sy : ℚ) * (sx : ℚ)) := by
  have hpy := padAmount_eq_zero hH
  have hpx := padAmount_eq_zero hW
  have hkey : scaleMatrix mat (PyVal.int (-(sy : ℤ))) (PyVal.int (-(sx : ℤ))) strict =
      Except.ok (scaleDownTail mat sy sx 0 0) := by
    rw [scaleMatrix_down mat sy sx hy hx strict]
    cases strict with
    | false => simp [hpy, hpx, padDown_eq_self hpy hpx]
    | true => simp [hH, hW]
  refine ⟨scaleDownTail mat sy sx 0 0, hkey, rfl, rfl, rfl, ?_⟩
  intro i j hi hj
  show applyCorrections sy sx 0 0 (mat.H / sy) (mat.W / sx)
      (blockAvg mat sy sx) i j = _
  rw [applyCorrections_zero]
  show blockSum mat sy sx i j / ((sx * sy : ℕ) : ℚ) = _
  rw [blockSum_eq, Nat.cast_mul, mul_comm ((sx : ℚ)) ((sy : ℚ))]
  congr 1
  refine Finset.sum_congr rfl (fun yo _ => Finset.sum_congr rfl (fun xo _ => ?_))
  rw [Nat.add_comm yo (i * sy), Nat.add_comm xo (j * sx)]

/-- Witness for C4 at spec scenario 2: the 4×4 grid downscaled by `(-2,-2)`. -/
theorem scaleMatrix_downscale_exact_witness :
    ∃ g, scaleMatrix g44 (PyVal.int (-2)) (PyVal.int (-2)) true = Except.ok g ∧
      g.H = g44.H / 2 ∧ g.W = g44.W / 2 ∧ g.dtype = DType.float ∧
      ∀ i j, i < g44.H / 2 → j < g44.W / 2 →
        g.data i j = (∑ yo in Finset.range 2, ∑ xo in Finset.range 2,
          g44.data (i * 2 + yo) (j * 2 + xo)) / ((2 : ℚ) * (2 : ℚ)) :=
  scaleMatrix_downscale_exact g44 2 2 true (by decide) (by decide)
    (by decide) (by decide)

/-- C5: upscaling by a positive pair `(sy,sx)` and then downscaling strictly by
`(-sy,-sx)` returns the original grid in shape and values (the round trip is
exactly lossless, every averaged block being constant). -/
theorem scaleMatrix_roundtrip (mat : Grid) (sy sx : ℕ) (hy : 0 < sy)
    (hx : 0 < sx) :
    ∃ g1 g2,
      scaleMatrix mat (PyVal.int (sy : ℤ)) (PyVal.int (sx : ℤ)) true =
        Except.ok g1 ∧
      scaleMatrix g1 (PyVal.int (-(sy : ℤ))) (PyVal.int (-(sx : ℤ))) true =
        Except.ok g2 ∧
      g2.H = mat.H ∧ g2.W = mat.W ∧
      ∀ i j, i < mat.H → j < mat.W → g2.data i j = mat.data i j := by
  refine ⟨scaleUp mat sy sx, scaleDownTail (scaleUp mat sy sx) sy sx 0 0,
    scaleMatrix_up mat sy sx hy hx true, ?_, ?_, ?_, ?_⟩
  · rw [scaleMatrix_down (scaleUp mat sy sx) sy sx hy hx true]
    have h1 : (scaleUp mat sy sx).H % sy = 0 := Nat.mul_mod_left mat.H sy
    have h2 : (scaleUp mat sy sx).W % sx = 0 := Nat.mul_mod_left mat.W sx
    simp [h1, h2]
  · show (scaleUp mat sy sx).H / sy = mat.H
    exact Nat.mul_div_cancel mat.H hy
  · show (scaleUp mat sy sx).W / sx = mat.W
    exact Nat.mul_div_cancel mat.W hx
  · intro i j hi hj
    show applyCorrections sy sx 0 0 (mat.H * sy / sy) (mat.W * sx / sx)
        (blockAvg (scaleUp mat sy sx) sy sx) i j = mat.data i j
    rw [applyCorrections_zero]
    show blockSum (scaleUp mat sy sx) sy sx i j / ((sx * sy : ℕ) : ℚ)
        = mat.data i j
    rw [blockSum_eq]
    have hterm : ∀ yo ∈ Finset.range sy, ∀ xo ∈ Finset.range sx,
        (scaleUp mat sy sx).data (yo + i * sy) (xo + j * sx) = mat.data i j := by
      intro yo hyo xo hxo
      rw [Finset.mem_range] at hyo hxo
      have hb1 : yo + i * sy < mat.H * sy := by
        calc yo + i * sy < sy + i * sy := by omega
        _ = (i + 1) * sy := by ring
        _ ≤ mat.H * sy := Nat.mul_le_mul_right sy hi
      have hb2 : xo + j * sx < mat.W * sx := by
        calc xo + j * sx < sx + j * sx := by omega
        _ = (j + 1) * sx := by ring
        _ ≤ mat.W * sx := Nat.mul_le_mul_right sx hj
      rw [scaleUp_data mat sy sx _ _ hb1 hb2]
      congr 1
      · rw [Nat.add_mul_div_right yo i hy, Nat.div_eq_of_lt hyo, Nat.zero_add]
      · rw [Nat.add_mul_div_right xo j hx, Nat.div_eq_of_lt hxo, Nat.zero_add]
    rw [Finset.sum_congr rfl
      (fun yo hyo => Finset.sum_congr rfl (fun xo hxo => hterm yo hyo xo hxo))]
    simp only [Finset.sum_const, Finset.card_range, smul_smul, nsmul_eq_mul]
    have hsy : ((sy : ℚ)) ≠ 0 := Nat.cast_ne_zero.mpr hy.ne'
    have hsx : ((sx : ℚ)) ≠ 0 := Nat.cast_ne_zero.mpr hx.ne'
    field_simp
    ring

/-- Witness for C5 at the 2×2 grid of spec scenario 1 with scale `(2,2)`. -/
theorem scaleMatrix_roundtrip_witness :
    ∃ g1 g2,
      scaleMatrix g22 (PyVal.int 2) (PyVal.int 2) true = Except.ok g1 ∧
      scaleMatrix g1 (PyVal.int (-2)) (PyVal.int (-2)) true = Except.ok g2 ∧
      g2.H = g22.H ∧ g2.W = g22.W ∧
      ∀ i j, i < g22.H → j < g22.W → g2.data i j = g22.data i j :=
  scaleMatrix_roundtrip g22 2 2 (by decide) (by decide)

/-- C1 (code bug): at the 3×4 all-ones grid downscaled by `(-2,-3)` with
`strict=false` (one padded row, two padded columns), the output cells `(0,1)`
and `(1,0)` come out as `2/3` and `3/2`, while the mean of only the real
cells they cover is `1` in both cases: the zero padding is NOT numerically
invisible, contradicting the spec and the function's own docstring.  The
cause is that the source applies the y-pad factor to the last column
(`out[:-1,-1]`) and the x-pad factor to the last row (`out[-1,:-1]`),
swapped relative to the axes the padding actually affected. -/
theorem scaleMatrix_padding_not_invisible :
    ∃ g, scaleMatrix g34 (PyVal.int (-2)) (PyVal.int (-3)) false = Except.ok g ∧
      g.data 0 1 = 2 / 3 ∧ g.data 1 0 = 3 / 2 ∧
      specRealMean g34 2 3 0 1 = 1 ∧ specRealMean g34 2 3 1 0 = 1 ∧
      g.data 0 1 ≠ specRealMean g34 2 3 0 1 ∧
      g.data 1 0 ≠ specRealMean g34 2 3 1 0 := by
  have hnav : scaleMatrix g34 (PyVal.int (-2)) (PyVal.int (-3)) false =
      Except.ok (scaleDownTail (padDown g34 2 3) 2 3 1 2) := by
    have h := scaleMatrix_down g34 2 3 (by decide) (by decide) false
    simp only [Bool.false_eq_true, if_false] at h
    rw [show padAmount g34.H 2 = 1 from rfl,
      show padAmount g34.W 3 = 2 from rfl] at h
    exact h
  have hpdd : ∀ r c, (padDown g34 2 3).data r c =
      if c < 4 then (if r < 3 then (1 : ℚ) else 0) else 0 := by
    intro r c
    simp [padDown, padAmount, g34, vconcat, hconcat, zerosF]
  have hpdH : (padDown g34 2 3).H = 4 := rfl
  have hpdW : (padDown g34 2 3).W = 6 := rfl
  have e1 : (scaleDownTail (padDown g34 2 3) 2 3 1 2).data 0 1 = 2 / 3 := by
    show applyCorrections 2 3 1 2 ((padDown g34 2 3).H / 2) ((padDown g34 2 3).W / 3)
        (blockAvg (padDown g34 2 3) 2 3) 0 1 = 2 / 3
    rw [hpdH, hpdW]
    norm_num [applyCorrections, blockAvg, blockSum_eq, hpdd, Finset.sum_range_succ]
  have e2 : (scaleDownTail (padDown g34 2 3) 2 3 1 2).data 1 0 = 3 / 2 := by
    show applyCorrections 2 3 1 2 ((padDown g34 2 3).H / 2) ((padDown g34 2 3).W / 3)
        (blockAvg (padDown g34 2 3) 2 3) 1 0 = 3 / 2
    rw [hpdH, hpdW]
    norm_num [applyCorrections, blockAvg, blockSum_eq, hpdd, Finset.sum_range_succ]
  have s1 : specRealMean g34 2 3 0 1 = 1 := by
    simp only [specRealMean, g34, Finset.sum_range_succ, Finset.sum_range_zero]
    norm_num
  have s2 : specRealMean g34 2 3 1 0 = 1 := by
    simp only [specRealMean, g34, Finset.sum_range_succ, Finset.sum_range_zero]
    norm_num
  refine ⟨_, hnav, e1, e2, s1, s2, ?_, ?_⟩
  · rw [e1, s1]
    norm_num
  · rw [e2, s2]
    norm_num

/-- C2 (code bug): at the 2×3 all-ones grid downscaled by `(-2,-2)` with
`strict=false` we get `yPad = 0`, `xPad = 1`, and a 1×2 output whose
uncorrected block means are `1` (block `(0,0)`, fully real) and `1/2`
(block `(0,1)`, half padded).  The claim says the last output column gets the
x-factor `2/(2-1)` and the corner gets the combined factor whenever either pad
is nonzero, while cells not in the last column get no correction (as
`yPad = 0`).  The code instead multiplies the fully-real cell `(0,0)` (last
row, `out[-1,:-1]`) by the x-factor, giving `2`, and leaves the corner `(0,1)`
at its biased value `1/2` (its correction is guarded by `yPad>0`): the
corrections are applied to the wrong cells. -/
theorem scaleMatrix_corrections_misapplied :
    ∃ g, scaleMatrix g23 (PyVal.int (-2)) (PyVal.int (-2)) false = Except.ok g ∧
      padAmount g23.H 2 = 0 ∧ padAmount g23.W 2 = 1 ∧ g.H = 1 ∧ g.W = 2 ∧
      blockAvg (padDown g23 2 2) 2 2 0 0 = 1 ∧
      blockAvg (padDown g23 2 2) 2 2 0 1 = 1 / 2 ∧
      g.data 0 0 = 2 ∧ g.data 0 1 = 1 / 2 ∧
      g.data 0 0 ≠ blockAvg (padDown g23 2 2) 2 2 0 0 ∧
      g.data 0 1 ≠ blockAvg (padDown g23 2 2) 2 2 0 1 *
        ((2 : ℚ) * 2 / ((2 : ℚ) - 0) / ((2 : ℚ) - 1)) := by
  have hnav : scaleMatrix g23 (PyVal.int (-2)) (PyVal.int (-2)) false =
      Except.ok (scaleDownTail (padDown g23 2 2) 2 2 0 1) := by
    have h := scaleMatrix_down g23 2 2 (by decide) (by decide) false
    simp only [Bool.false_eq_true, if_false] at h
    rw [show padAmount g23.H 2 = 0 from rfl,
      show padAmount g23.W 2 = 1 from rfl] at h
    exact h
  have hpdd : ∀ r c, (padDown g23 2 2).data r c =
      if c < 3 then (1 : ℚ) else 0 := by
    intro r c
    simp [padDown, padAmount, g23, vconcat, hconcat, zerosF]
  have hpdH : (padDown g23 2 2).H = 2 := rfl
  have hpdW : (padDown g23 2 2).W = 4 := rfl
  have b0 : blockAvg (padDown g23 2 2) 2 2 0 0 = 1 := by
    show blockSum (padDown g23 2 2) 2 2 0 0 / ((2 * 2 : ℕ) : ℚ) = 1
    rw [blockSum_eq]
    simp only [hpdd, Finset.sum_range_succ, Finset.sum_range_zero]
    norm_num
  have b1 : blockAvg (padDown g23 2 2) 2 2 0 1 = 1 / 2 := by
    show blockSum (padDown g23 2 2) 2 2 0 1 / ((2 * 2 : ℕ) : ℚ) = 1 / 2
    rw [blockSum_eq]
    simp only [hpdd, Finset.sum_range_succ, Finset.sum_range_zero]
    norm_num
  have e0 : (scaleDownTail (padDown g23 2 2) 2 2 0 1).data 0 0 = 2 := by
    show applyCorrections 2 2 0 1 ((padDown g23 2 2).H / 2) ((padDown g23 2 2).W / 2)
        (blockAvg (padDown g23 2 2) 2 2) 0 0 = 2
    rw [hpdH, hpdW]
    norm_num [applyCorrections, b0]
  have e1 : (scaleDownTail (padDown g23 2 2) 2 2 0 1).data 0 1 = 1 / 2 := by
    show applyCorrections 2 2 0 1 ((padDown g23 2 2).H / 2) ((padDown g23 2 2).W / 2)
        (blockAvg (padDown g23 2 2) 2 2) 0 1 = 1 / 2
    rw [hpdH, hpdW]
    norm_num [applyCorrections, b1]
  refine ⟨_, hnav, rfl, rfl, rfl, rfl, b0, b1, e0, e1, ?_, ?_⟩
  · rw [e0, b0]
    norm_num
  · rw [e1, b1]
    norm_num
